import Mathlib

/- Shallow embedding of the ai-code-reviewer orchestration core.

   Sources embedded:
   - app/models/review.py  : FindingSeverity, FindingCategory, AgentFinding, ReviewResult
   - app/agents/base.py    : BaseAgent.analyze, _build_prompt, _parse_response
   - app/agents/security.py, performance.py, style.py, architecture.py : agent configuration
   - app/agents/orchestrator.py : ReviewState, ReviewOrchestrator (LangGraph workflow,
     review_code, review_multiple_files)

   External collaborators (the Gemini generative model, the vector store) are modelled
   as function parameters returning either a value or a Python exception. -/

set_option linter.unusedVariables false

-- ===== Data model (app/models/review.py) =====

/-- Severity levels for findings. Models FindingSeverity in app/models/review.py. -/
inductive FindingSeverity where
  | critical
  | high
  | medium
  | low
  | info
deriving DecidableEq

/-- Categories of findings. Models FindingCategory in app/models/review.py. -/
inductive FindingCategory where
  | security
  | performance
  | style
  | architecture
  | bug
  | best_practice
deriving DecidableEq

/-- Kinds of Python exception that can cross the boundaries modelled here:
attribute access on a non-dict, unhashable dict key, pydantic validation failure,
json.JSONDecodeError, and any failure inside an external collaborator call. -/
inductive PyError where
  | attributeError
  | typeError
  | validationError
  | jsonDecodeError
  | externalError
deriving DecidableEq

/-- A single finding from an agent. Models AgentFinding in app/models/review.py.
The pydantic float confidence (default 0.8, constrained to the unit interval)
is modelled as a rational number. -/
structure AgentFinding where
  agent_name : String
  category : FindingCategory
  severity : FindingSeverity
  title : String
  description : String
  file_path : Option String := none
  line_number : Option Int := none
  code_snippet : Option String := none
  suggestion : Option String := none
  confidence : Rat := 0.8
deriving DecidableEq

/-- Complete review result from all agents. Models ReviewResult in app/models/review.py.
The wall-clock analysis_timestamp (datetime default factory) is modelled as a Nat
supplied by the caller of the embedding. -/
structure ReviewResult where
  repository : String
  pr_number : Option Nat := none
  findings : List AgentFinding := []
  summary : String := ""
  total_files_analyzed : Nat := 0
  analysis_timestamp : Nat := 0
deriving DecidableEq

-- ===== JSON values and a model of Python json.loads =====

/-- JSON values, the possible results of json.loads on the fragment this
program exchanges (null, booleans, integers, strings, arrays, objects). -/
inductive Json where
  | null
  | bool (b : Bool)
  | num (n : Int)
  | str (s : String)
  | arr (elems : List Json)
  | obj (fields : List (String × Json))

/-- Drop leading JSON whitespace. -/
def skipWs : List Char → List Char
  | ' ' :: rest => skipWs rest
  | '\n' :: rest => skipWs rest
  | '\t' :: rest => skipWs rest
  | '\r' :: rest => skipWs rest
  | cs => cs

/-- Translate the character after a backslash escape in a JSON string literal. -/
def escChar (c : Char) : Char :=
  if c = 'n' then '\n'
  else if c = 't' then '\t'
  else if c = 'r' then '\r'
  else c

/-- Scan a JSON string literal body, the opening quote already consumed;
returns the decoded characters and the remainder after the closing quote. -/
def parseStrAux (acc : List Char) : List Char → Option (List Char × List Char)
  | [] => none
  | '"' :: rest => some (acc.reverse, rest)
  | '\\' :: c :: rest => parseStrAux (escChar c :: acc) rest
  | c :: rest => parseStrAux (c :: acc) rest

/-- Take the leading run of decimal digits. -/
def takeDigits : List Char → List Char × List Char
  | [] => ([], [])
  | c :: rest =>
    if c.isDigit then
      let (ds, r) := takeDigits rest
      (c :: ds, r)
    else ([], c :: rest)

/-- Decimal digits to a natural number. -/
def digitsToNat (ds : List Char) : Nat :=
  ds.foldl (fun n c => n * 10 + (c.toNat - 48)) 0

mutual

/-- Models json.loads: parse one JSON value (integer-number fragment),
returning the value and the unconsumed remainder. Fuel-indexed. -/
def parseVal : Nat → List Char → Option (Json × List Char)
  | 0, _ => none
  | fuel + 1, cs =>
    match skipWs cs with
    | 'n' :: 'u' :: 'l' :: 'l' :: rest => some (Json.null, rest)
    | 't' :: 'r' :: 'u' :: 'e' :: rest => some (Json.bool true, rest)
    | 'f' :: 'a' :: 'l' :: 's' :: 'e' :: rest => some (Json.bool false, rest)
    | '"' :: rest =>
      match parseStrAux [] rest with
      | some (s, r) => some (Json.str (String.mk s), r)
      | none => none
    | '[' :: rest =>
      match skipWs rest with
      | ']' :: r => some (Json.arr [], r)
      | _ =>
        match parseElems fuel rest with
        | some (vs, r) => some (Json.arr vs, r)
        | none => none
    | '{' :: rest =>
      match skipWs rest with
      | '}' :: r => some (Json.obj [], r)
      | _ =>
        match parseFields fuel rest with
        | some (kvs, r) => some (Json.obj kvs, r)
        | none => none
    | '-' :: rest =>
      match takeDigits rest with
      | ([], _) => none
      | (ds, r) => some (Json.num (-(digitsToNat ds : Int)), r)
    | c :: rest =>
      if c.isDigit then
        match takeDigits (c :: rest) with
        | (ds, r) => some (Json.num (digitsToNat ds : Int), r)
      else none
    | [] => none

/-- Parse the elements of a nonempty JSON array, after the opening bracket. -/
def parseElems : Nat → List Char → Option (List Json × List Char)
  | 0, _ => none
  | fuel + 1, cs =>
    match parseVal fuel cs with
    | none => none
    | some (v, r) =>
      match skipWs r with
      | ',' :: r2 =>
        match parseElems fuel r2 with
        | some (vs, r3) => some (v :: vs, r3)
        | none => none
      | ']' :: r2 => some ([v], r2)
      | _ => none

/-- Parse the fields of a nonempty JSON object, after the opening brace. -/
def parseFields : Nat → List Char → Option (List (String × Json) × List Char)
  | 0, _ => none
  | fuel + 1, cs =>
    match skipWs cs with
    | '"' :: rest =>
      match parseStrAux [] rest with
      | none => none
      | some (key, r1) =>
        match skipWs r1 with
        | ':' :: r2 =>
          match parseVal fuel r2 with
          | none => none
          | some (v, r3) =>
            match skipWs r3 with
            | ',' :: r4 =>
              match parseFields fuel r4 with
              | some (kvs, r5) => some ((String.mk key, v) :: kvs, r5)
              | none => none
            | '}' :: r4 => some ([(String.mk key, v)], r4)
            | _ => none
        | _ => none
    | _ => none

end

/-- Models Python json.loads on a whole string: one value, then only
whitespace may remain; any leftover input is a JSONDecodeError (none). -/
def json_loads (s : String) : Option Json :=
  match parseVal (2 * s.data.length + 4) s.data with
  | some (v, rest) => if (skipWs rest).isEmpty then some v else none
  | none => none

-- ===== Agent configuration (app/agents/security.py etc.) =====

/-- Static configuration of one review agent: the name passed to the BaseAgent
constructor, the system prompt, the focus areas, and the finding category. -/
structure Agent where
  name : String
  system_prompt : String
  focus_areas : List String
  category : FindingCategory

/-- SecurityAgent configuration from app/agents/security.py. -/
def SecurityAgent : Agent :=
  { name := "SecurityAgent"
    system_prompt := "You are a security expert reviewing code for vulnerabilities and security issues.\nYour role is to identify:\n- SQL injection vulnerabilities\n- Cross-site scripting (XSS) vulnerabilities\n- Authentication and authorization issues\n- Insecure data handling\n- Hardcoded secrets or credentials\n- Insecure dependencies\n- Cryptographic weaknesses\n- Input validation issues\n- Path traversal vulnerabilities\n- Command injection risks\n\nBe thorough but avoid false positives. Only report genuine security concerns."
    focus_areas := ["SQL injection", "XSS vulnerabilities", "Authentication/Authorization", "Secrets management", "Input validation", "Cryptography", "Dependency security"]
    category := FindingCategory.security }

/-- PerformanceAgent configuration from app/agents/performance.py. -/
def PerformanceAgent : Agent :=
  { name := "PerformanceAgent"
    system_prompt := "You are a performance optimization expert reviewing code for efficiency issues.\nYour role is to identify:\n- Inefficient algorithms (e.g., O(n²) when O(n) is possible)\n- N+1 query problems in database operations\n- Unnecessary loops or iterations\n- Memory leaks or excessive memory usage\n- Blocking operations that should be async\n- Redundant computations\n- Inefficient data structures\n- Missing caching opportunities\n- Large file operations without streaming\n\nFocus on issues that have measurable performance impact."
    focus_areas := ["Algorithm efficiency", "Database query optimization", "Memory usage", "Async/await patterns", "Caching opportunities", "Data structure selection"]
    category := FindingCategory.performance }

/-- StyleAgent configuration from app/agents/style.py. -/
def StyleAgent : Agent :=
  { name := "StyleAgent"
    system_prompt := "You are a code quality expert reviewing code for style and maintainability.\nYour role is to identify:\n- Poor naming conventions (unclear variable/function names)\n- Code duplication\n- Overly complex functions (too long, too many parameters)\n- Missing or inadequate comments/documentation\n- Inconsistent formatting\n- Magic numbers or strings\n- Dead code or unused imports\n- Poor error handling\n- Lack of type hints (in typed languages)\n\nFocus on issues that affect code readability and maintainability. Be constructive."
    focus_areas := ["Naming conventions", "Code duplication", "Function complexity", "Documentation", "Error handling", "Code organization"]
    category := FindingCategory.style }

/-- ArchitectureAgent configuration from app/agents/architecture.py. -/
def ArchitectureAgent : Agent :=
  { name := "ArchitectureAgent"
    system_prompt := "You are a software architecture expert reviewing code for design quality.\nYour role is to identify:\n- Violation of SOLID principles\n- Tight coupling between components\n- Missing abstraction layers\n- Inappropriate use of design patterns\n- Circular dependencies\n- God objects or classes with too many responsibilities\n- Inconsistent layering (e.g., business logic in controllers)\n- Missing interfaces or contracts\n- Poor separation of concerns\n- Scalability concerns\n\nFocus on architectural issues that affect long-term maintainability and extensibility."
    focus_areas := ["SOLID principles", "Coupling and cohesion", "Design patterns", "Separation of concerns", "Scalability", "Modularity"]
    category := FindingCategory.architecture }

-- ===== Prompt construction (BaseAgent._build_prompt) =====

/-- The JSON-format instruction block appended to every prompt in
BaseAgent._build_prompt (app/agents/base.py lines 72 to 85). -/
def json_format_instructions : String :=
  "\nPlease analyze the code and provide findings in the following JSON format:\n[\n  \x7b\n    \"title\": \"Brief title of the issue\",\n    \"description\": \"Detailed description\",\n    \"severity\": \"critical|high|medium|low|info\",\n    \"line_number\": <line number if applicable>,\n    \"code_snippet\": \"relevant code snippet\",\n    \"suggestion\": \"how to fix it\"\n  \x7d\n]\n\nFocus on: "

/-- Models BaseAgent._build_prompt: system prompt, optional repository context,
the code block, and the JSON-format instructions plus focus areas. -/
def build_prompt (ag : Agent) (code context file_path : String) : String :=
  let p1 := ag.system_prompt ++ "\n\n"
  let p2 := if context = "" then p1 else p1 ++ "## Repository Context\n" ++ context ++ "\n\n"
  let p3 := p2 ++ "## Code to Review\n"
  let p4 := if file_path = "" then p3 else p3 ++ "File: " ++ file_path ++ "\n\n"
  let p5 := p4 ++ "```\n" ++ code ++ "\n```\n\n"
  p5 ++ json_format_instructions ++ String.intercalate ", " ag.focus_areas

-- ===== Response parsing (BaseAgent._parse_response) =====

/-- Return the suffix of the character list starting at the first occurrence
of c, or none when c does not occur. -/
def firstFrom (c : Char) : List Char → Option (List Char)
  | [] => none
  | x :: xs => if x = c then some (x :: xs) else firstFrom c xs

/-- Models re.search of a bracketed segment with DOTALL in _parse_response:
the greedy match runs from the first opening bracket to the last closing
bracket after it; none when no such pair exists. -/
def re_search_brackets (s : String) : Option String :=
  match firstFrom '[' s.data with
  | none => none
  | some [] => none
  | some (_ :: rest) =>
    match firstFrom ']' rest.reverse with
    | none => none
    | some revSeg => some (String.mk ('[' :: revSeg.reverse))

/-- The severity_map dictionary in _parse_response. -/
def severity_map : List (String × FindingSeverity) :=
  [("critical", FindingSeverity.critical),
   ("high", FindingSeverity.high),
   ("medium", FindingSeverity.medium),
   ("low", FindingSeverity.low),
   ("info", FindingSeverity.info)]

/-- Models severity_map.get(x, FindingSeverity.INFO): unknown strings and
hashable non-strings default to INFO; an unhashable key (list or dict)
raises TypeError. -/
def severityOfJson : Json → Except PyError FindingSeverity
  | Json.str s => Except.ok ((severity_map.lookup s).getD FindingSeverity.info)
  | Json.arr _ => Except.error PyError.typeError
  | Json.obj _ => Except.error PyError.typeError
  | _ => Except.ok FindingSeverity.info

/-- Models Python dict.get(key, default) on a parsed JSON object; with
duplicate keys the last binding wins, as in json.loads. -/
def objGet (fields : List (String × Json)) (key : String) (default : Json) : Json :=
  (fields.reverse.lookup key).getD default

/-- Pydantic validation of a required str field: only a JSON string is
accepted (pydantic v2 does not coerce numbers to str). -/
def asStr : Json → Except PyError String
  | Json.str s => Except.ok s
  | _ => Except.error PyError.validationError

/-- Pydantic validation of an Optional str field. -/
def asOptStr : Json → Except PyError (Option String)
  | Json.null => Except.ok none
  | Json.str s => Except.ok (some s)
  | _ => Except.error PyError.validationError

/-- Pydantic validation of an Optional int field, on the value shapes this
program exchanges (integer or null). -/
def asOptInt : Json → Except PyError (Option Int)
  | Json.null => Except.ok none
  | Json.num n => Except.ok (some n)
  | _ => Except.error PyError.validationError

/-- Build one AgentFinding from one entry of the findings array, as the loop
body of _parse_response does: item.get with defaults for each field, the
severity mapped through severity_map, agent_name and category fixed by the
agent, confidence left at the model default. A non-dict entry has no .get
attribute and raises AttributeError. -/
def parseItem (agent_name : String) (category : FindingCategory) (file_path : String) :
    Json → Except PyError AgentFinding
  | Json.obj fields =>
    match severityOfJson (objGet fields "severity" (Json.str "info")) with
    | Except.error e => Except.error e
    | Except.ok severity =>
      match asStr (objGet fields "title" (Json.str "Issue found")) with
      | Except.error e => Except.error e
      | Except.ok title =>
        match asStr (objGet fields "description" (Json.str "")) with
        | Except.error e => Except.error e
        | Except.ok description =>
          match asOptInt (objGet fields "line_number" Json.null) with
          | Except.error e => Except.error e
          | Except.ok line_number =>
            match asOptStr (objGet fields "code_snippet" Json.null) with
            | Except.error e => Except.error e
            | Except.ok code_snippet =>
              match asOptStr (objGet fields "suggestion" Json.null) with
              | Except.error e => Except.error e
              | Except.ok suggestion =>
                Except.ok
                  { agent_name := agent_name
                    category := category
                    severity := severity
                    title := title
                    description := description
                    file_path := some file_path
                    line_number := line_number
                    code_snippet := code_snippet
                    suggestion := suggestion
                    confidence := 0.8 }
  | _ => Except.error PyError.attributeError

/-- The for-loop of _parse_response over the decoded findings array: entries
are processed in order and the first exception escaping an entry aborts the
whole loop (only JSONDecodeError is caught, and json.loads has already
succeeded at this point). -/
def parse_items (agent_name : String) (category : FindingCategory) (file_path : String) :
    List Json → Except PyError (List AgentFinding)
  | [] => Except.ok []
  | item :: rest =>
    match parseItem agent_name category file_path item with
    | Except.error e => Except.error e
    | Except.ok f =>
      match parse_items agent_name category file_path rest with
      | Except.error e => Except.error e
      | Except.ok fs => Except.ok (f :: fs)

/-- Models BaseAgent._parse_response: extract the bracketed segment, decode it
with json.loads (a decode failure is caught and yields the findings gathered
so far, which is the empty list), then build one finding per entry. The
decoded value of a bracketed segment is always an array; iterating anything
else would raise TypeError. -/
def parse_response (agent_name : String) (category : FindingCategory)
    (response_text file_path : String) : Except PyError (List AgentFinding) :=
  match re_search_brackets response_text with
  | none => Except.ok []
  | some jtext =>
    match json_loads jtext with
    | none => Except.ok []
    | some (Json.arr items) => parse_items agent_name category file_path items
    | some _ => Except.error PyError.typeError

-- ===== BaseAgent.analyze =====

/-- Behaviour of the external generative call (model.generate_content plus
the response.text access): from the prompt to either raw text or an
exception. -/
def Producer := String → Except PyError String

/-- The body of the try block in BaseAgent.analyze: call the producer on the
built prompt, then parse its text; any exception from either step escapes. -/
def analyze_attempt (ag : Agent) (producer : Producer) (code context file_path : String) :
    Except PyError (List AgentFinding) :=
  match producer (build_prompt ag code context file_path) with
  | Except.error e => Except.error e
  | Except.ok text => parse_response ag.name ag.category text file_path

/-- Models BaseAgent.analyze: the try block with the catch-all except clause
that logs the error and returns the empty finding list. -/
def analyze (ag : Agent) (producer : Producer) (code context file_path : String) :
    List AgentFinding :=
  match analyze_attempt ag producer code context file_path with
  | Except.ok findings => findings
  | Except.error _ => []

-- ===== Orchestrator (app/agents/orchestrator.py) =====

/-- The four analysis tasks dispatched by the workflow graph. -/
inductive TaskName where
  | security
  | performance
  | style
  | architecture
deriving DecidableEq, BEq

/-- The four dispatched tasks, in the order their nodes are added to the graph. -/
def allTasks : List TaskName :=
  [TaskName.security, TaskName.performance, TaskName.style, TaskName.architecture]

/-- The agent object run by each review node. -/
def agentOf : TaskName → Agent
  | TaskName.security => SecurityAgent
  | TaskName.performance => PerformanceAgent
  | TaskName.style => StyleAgent
  | TaskName.architecture => ArchitectureAgent

/-- The string each review node appends to agents_completed. -/
def nodeKey : TaskName → String
  | TaskName.security => "security"
  | TaskName.performance => "performance"
  | TaskName.style => "style"
  | TaskName.architecture => "architecture"

/-- One vector-store match as consumed by _retrieve_context: the text and
file_path entries of its metadata dict (dict.get defaults of empty string
and empty dict already absorbed). -/
structure SearchMatch where
  text : String
  file_path : String

/-- Behaviour of the vector-store search collaborator: from query, namespace
and top_k to either a match list or an exception. -/
def SearchFun := String → String → Nat → Except PyError (List SearchMatch)

/-- State for the review workflow. Models ReviewState in orchestrator.py;
findings and agents_completed carry the Annotated operator.add merge, so
concurrent node updates are concatenated. -/
structure ReviewState where
  code : String
  file_path : String
  repo_namespace : String
  context : String
  findings : List AgentFinding
  agents_completed : List String
deriving DecidableEq

/-- Models ReviewOrchestrator._retrieve_context: build the query from the
file path and the first 500 characters of the code, call the vector store,
join the matches into a context string; on any exception degrade to the
empty context. Only the context field is written. -/
def retrieve_context (search : SearchFun) (st : ReviewState) : ReviewState :=
  let query := "Code from " ++ st.file_path ++ ": " ++ st.code.take 500
  match search query st.repo_namespace 5 with
  | Except.ok ms =>
    let context_parts := ms.map (fun m => "From " ++ m.file_path ++ ":\n" ++ m.text)
    { st with context := String.intercalate "\n\n" context_parts }
  | Except.error _ => { st with context := "" }

/-- The partial state update returned by one review node: the dict with the
new findings and the singleton agents_completed list. -/
structure NodeUpdate where
  findings : List AgentFinding
  agents_completed : List String

/-- Models the four _*_review node bodies: run the task agent on the shared
post-context state and return only the values to be added. -/
def agent_review (producers : TaskName → Producer) (t : TaskName) (st : ReviewState) :
    NodeUpdate :=
  { findings := analyze (agentOf t) (producers t) st.code st.context st.file_path
    agents_completed := [nodeKey t] }

/-- The operator.add merge of one node update into the shared state, as the
Annotated reducers of ReviewState perform it. -/
def applyUpdate (st : ReviewState) (u : NodeUpdate) : ReviewState :=
  { st with
    findings := st.findings ++ u.findings
    agents_completed := st.agents_completed ++ u.agents_completed }

/-- The orchestrator handle: its agent collaborators are fixed configuration,
so its mutable content is the producer behaviour of each task agent and the
vector store handle. -/
structure ReviewOrchestrator where
  producers : TaskName → Producer
  search : SearchFun

/-- The initial state review_code builds before invoking the workflow. -/
def initial_state (code file_path repo_namespace : String) : ReviewState :=
  { code := code
    file_path := file_path
    repo_namespace := repo_namespace
    context := ""
    findings := []
    agents_completed := [] }

/-- One run of the compiled workflow graph: the context node first, then the
four review nodes fan out from it; their updates are merged by the
operator.add reducers in the order the nodes complete (the parameter ord),
then the aggregation node returns the state unchanged. Every review node
reads the shared state as left by the context barrier. -/
def run_workflow (o : ReviewOrchestrator) (st0 : ReviewState) (ord : List TaskName) :
    ReviewState :=
  let st1 := retrieve_context o.search st0
  ord.foldl (fun st t => applyUpdate st (agent_review o.producers t st1)) st1

/-- The final workflow state of ReviewOrchestrator.review_code on the given
inputs, for the completion order ord of the four review nodes. -/
def ReviewOrchestrator.review_code_state (o : ReviewOrchestrator)
    (code file_path repo_namespace : String) (ord : List TaskName) : ReviewState :=
  run_workflow o (initial_state code file_path repo_namespace) ord

/-- Models ReviewOrchestrator.review_code: invoke the workflow on the initial
state and return the findings of the final state. The orchestrator value is
returned as well to make explicit that the call mutates nothing of it. -/
def ReviewOrchestrator.review_code (o : ReviewOrchestrator)
    (code file_path repo_namespace : String) (ord : List TaskName) :
    List AgentFinding × ReviewOrchestrator :=
  ((o.review_code_state code file_path repo_namespace ord).findings, o)

/-- The findings a task contributes in a given review_code run: its agent
run on the code, the retrieved (or degraded) context, and the file path. -/
def taskFindings (o : ReviewOrchestrator) (code file_path repo_namespace : String)
    (t : TaskName) : List AgentFinding :=
  analyze (agentOf t) (o.producers t) code
    (retrieve_context o.search (initial_state code file_path repo_namespace)).context
    file_path

-- ===== Batch review (ReviewOrchestrator.review_multiple_files) =====

/-- Models ReviewOrchestrator.review_multiple_files result construction. Each
file is a (path, content) pair; reviewItem gives the resolved outcome of
that item under asyncio.gather with return_exceptions=True (the review_code
findings, or the exception that escaped the item pipeline). Results arrive
in submission order; exceptions are logged and skipped; the ReviewResult
counts every submitted file. -/
def review_multiple_files
    (reviewItem : String × String → Except PyError (List AgentFinding))
    (files : List (String × String)) (repo_namespace : String) (now : Nat) :
    ReviewResult :=
  let results := files.map reviewItem
  let all_findings :=
    (results.filterMap (fun r =>
      match r with
      | Except.ok fs => some fs
      | Except.error _ => none)).flatten
  { repository := repo_namespace.replace "_" "/"
    pr_number := none
    findings := all_findings
    summary := ""
    total_files_analyzed := files.length
    analysis_timestamp := now }

/-- The hardcoded concurrency ceiling of review_multiple_files:
asyncio.Semaphore(3). The method has no concurrency-limit parameter. -/
def review_concurrency_limit : Nat := 3

/-- Scheduling state of one batch: items not yet admitted by the semaphore,
items currently holding one of its slots, and items already resolved. -/
structure BatchSchedState where
  waiting : List Nat
  active : List Nat
  done : List Nat
deriving DecidableEq

/-- The state of review_multiple_files right after asyncio.gather starts all
item tasks: every item queued on the semaphore, none admitted. -/
def initBatchState (n : Nat) : BatchSchedState :=
  { waiting := List.range n, active := [], done := [] }

/-- One scheduling event of the semaphore-bounded batch: a queued item is
admitted when a slot is free (semaphore acquire), or an active item resolves
and releases its slot. -/
inductive BatchStep : BatchSchedState → BatchSchedState → Prop where
  | acquire (s : BatchSchedState) (t : Nat) (rest : List Nat)
      (hw : s.waiting = t :: rest)
      (hlt : s.active.length < review_concurrency_limit) :
      BatchStep s { waiting := rest, active := s.active ++ [t], done := s.done }
  | finish (s : BatchSchedState) (t : Nat)
      (hmem : t ∈ s.active) :
      BatchStep s { waiting := s.waiting, active := s.active.erase t, done := s.done ++ [t] }

/-- The batch states reachable from a given start by scheduling events. -/
def BatchReachable : BatchSchedState → BatchSchedState → Prop :=
  Relation.ReflTransGen BatchStep

-- ===== Helper lemmas =====

lemma retrieve_context_code (sf : SearchFun) (st : ReviewState) :
    (retrieve_context sf st).code = st.code := by
  simp only [retrieve_context]
  split <;> rfl

lemma retrieve_context_file_path (sf : SearchFun) (st : ReviewState) :
    (retrieve_context sf st).file_path = st.file_path := by
  simp only [retrieve_context]
  split <;> rfl

lemma retrieve_context_repo_namespace (sf : SearchFun) (st : ReviewState) :
    (retrieve_context sf st).repo_namespace = st.repo_namespace := by
  simp only [retrieve_context]
  split <;> rfl

lemma retrieve_context_findings (sf : SearchFun) (st : ReviewState) :
    (retrieve_context sf st).findings = st.findings := by
  simp only [retrieve_context]
  split <;> rfl

lemma retrieve_context_agents_completed (sf : SearchFun) (st : ReviewState) :
    (retrieve_context sf st).agents_completed = st.agents_completed := by
  simp only [retrieve_context]
  split <;> rfl

lemma foldl_applyUpdate (p : TaskName → Producer) (st1 : ReviewState) :
    ∀ (ord : List TaskName) (base : ReviewState),
    ord.foldl (fun st t => applyUpdate st (agent_review p t st1)) base =
      { base with
        findings :=
          base.findings ++ (ord.map (fun t => (agent_review p t st1).findings)).flatten
        agents_completed := base.agents_completed ++ ord.map nodeKey } := by
  intro ord
  induction ord with
  | nil =>
    intro base
    simp
  | cons t ts ih =>
    intro base
    rw [List.foldl_cons, ih]
    simp [applyUpdate, agent_review, List.append_assoc]

lemma review_code_state_eq (o : ReviewOrchestrator) (code fp ns : String)
    (ord : List TaskName) :
    o.review_code_state code fp ns ord =
      { code := code
        file_path := fp
        repo_namespace := ns
        context := (retrieve_context o.search (initial_state code fp ns)).context
        findings := (ord.map (fun t => taskFindings o code fp ns t)).flatten
        agents_completed := ord.map nodeKey } := by
  unfold ReviewOrchestrator.review_code_state run_workflow
  rw [foldl_applyUpdate]
  simp only [agent_review, taskFindings,
    retrieve_context_code, retrieve_context_file_path, retrieve_context_repo_namespace,
    retrieve_context_findings, retrieve_context_agents_completed]
  simp [initial_state]

lemma flatten_map_perm {α β : Type} (f : β → List α) {l₁ l₂ : List β} (h : l₁.Perm l₂) :
    ((l₁.map f).flatten).Perm ((l₂.map f).flatten) := by
  induction h with
  | nil => exact List.Perm.refl _
  | cons x h ih =>
    simp only [List.map_cons, List.flatten_cons]
    exact ih.append_left (f x)
  | swap x y l =>
    simp only [List.map_cons, List.flatten_cons, ← List.append_assoc]
    exact (List.perm_append_comm).append_right _
  | trans h1 h2 ih1 ih2 => exact ih1.trans ih2

lemma infix_flatten_of_mem {α β : Type} (f : β → List α) :
    ∀ (l : List β) (t : β), t ∈ l → f t <:+: (l.map f).flatten := by
  intro l
  induction l with
  | nil =>
    intro t ht
    cases ht
  | cons x xs ih =>
    intro t ht
    simp only [List.map_cons, List.flatten_cons]
    rcases List.mem_cons.mp ht with h | h
    · subst h
      exact (List.prefix_append (f t) ((xs.map f).flatten)).isInfix
    · exact (ih t h).trans (List.suffix_append (f x) ((xs.map f).flatten)).isInfix

lemma review_findings_eq (o : ReviewOrchestrator) (code fp ns : String) (ord : List TaskName) :
    (o.review_code_state code fp ns ord).findings =
      (ord.map (fun t => taskFindings o code fp ns t)).flatten := by
  rw [review_code_state_eq]

lemma review_completed_eq (o : ReviewOrchestrator) (code fp ns : String) (ord : List TaskName) :
    (o.review_code_state code fp ns ord).agents_completed = ord.map nodeKey := by
  rw [review_code_state_eq]

lemma review_findings_perm (o : ReviewOrchestrator) (code fp ns : String)
    {ord1 ord2 : List TaskName} (h : ord1.Perm ord2) :
    ((o.review_code_state code fp ns ord1).findings).Perm
      ((o.review_code_state code fp ns ord2).findings) := by
  rw [review_findings_eq, review_findings_eq]
  exact flatten_map_perm _ h

lemma review_completed_perm (o : ReviewOrchestrator) (code fp ns : String)
    {ord : List TaskName} (h : ord.Perm allTasks) :
    ((o.review_code_state code fp ns ord).agents_completed).Perm
      ["security", "performance", "style", "architecture"] := by
  rw [review_completed_eq]
  have h2 := h.map nodeKey
  simpa [allTasks, nodeKey] using h2

lemma analyze_eq_nil_of_producer_fail (ag : Agent) (producer : Producer)
    (code context file_path : String) (h : ∀ s, (producer s).isOk = false) :
    analyze ag producer code context file_path = [] := by
  unfold analyze analyze_attempt
  cases hp : producer (build_prompt ag code context file_path) with
  | ok t =>
    have h2 := h (build_prompt ag code context file_path)
    rw [hp] at h2
    simp [Except.isOk, Except.toBool] at h2
  | error e => rfl

lemma parseItem_ok_fields (n : String) (c : FindingCategory) (fp : String) (item : Json)
    (f : AgentFinding) (h : parseItem n c fp item = Except.ok f) :
    f.agent_name = n ∧ f.category = c ∧ f.confidence = 0.8 ∧ f.file_path = some fp := by
  cases item <;> simp only [parseItem] at h <;> try exact Except.noConfusion h
  repeat' split at h
  all_goals try exact Except.noConfusion h
  injection h with h2
  subst h2
  exact ⟨rfl, rfl, rfl, rfl⟩

lemma parse_items_mem (n : String) (c : FindingCategory) (fp : String) :
    ∀ (items : List Json) (fs : List AgentFinding),
    parse_items n c fp items = Except.ok fs →
    ∀ f ∈ fs, ∃ item ∈ items, parseItem n c fp item = Except.ok f := by
  intro items
  induction items with
  | nil =>
    intro fs h f hf
    simp only [parse_items] at h
    injection h with h2
    subst h2
    cases hf
  | cons item rest ih =>
    intro fs h f hf
    simp only [parse_items] at h
    cases hpi : parseItem n c fp item with
    | error e =>
      rw [hpi] at h
      exact Except.noConfusion h
    | ok f1 =>
      rw [hpi] at h
      cases hrest : parse_items n c fp rest with
      | error e =>
        rw [hrest] at h
        exact Except.noConfusion h
      | ok fs1 =>
        rw [hrest] at h
        injection h with h2
        subst h2
        rcases List.mem_cons.mp hf with rfl | hmem
        · exact ⟨item, by simp, hpi⟩
        · obtain ⟨it, hit, hok⟩ := ih fs1 hrest f hmem
          exact ⟨it, by simp [hit], hok⟩

lemma parse_response_ok_mem (n : String) (c : FindingCategory) (text fp : String)
    (fs : List AgentFinding) (h : parse_response n c text fp = Except.ok fs)
    (f : AgentFinding) (hf : f ∈ fs) :
    f.agent_name = n ∧ f.category = c ∧ f.confidence = 0.8 ∧ f.file_path = some fp := by
  unfold parse_response at h
  cases hre : re_search_brackets text with
  | none =>
    rw [hre] at h
    injection h with h2
    subst h2
    cases hf
  | some jt =>
    simp only [hre] at h
    cases hjl : json_loads jt with
    | none =>
      simp only [hjl] at h
      injection h with h2
      subst h2
      cases hf
    | some j =>
      simp only [hjl] at h
      cases j <;> try exact Except.noConfusion h
      case arr items =>
        obtain ⟨it, _, hok⟩ := parse_items_mem n c fp items fs h f hf
        exact parseItem_ok_fields n c fp it f hok

lemma analyze_mem_fields (ag : Agent) (producer : Producer) (code context fp : String)
    (f : AgentFinding) (hf : f ∈ analyze ag producer code context fp) :
    f.agent_name = ag.name ∧ f.category = ag.category ∧ f.confidence = 0.8 ∧
      f.file_path = some fp := by
  unfold analyze at hf
  cases ha : analyze_attempt ag producer code context fp with
  | error e =>
    rw [ha] at hf
    cases hf
  | ok fs =>
    rw [ha] at hf
    unfold analyze_attempt at ha
    cases hp : producer (build_prompt ag code context fp) with
    | error e =>
      rw [hp] at ha
      exact Except.noConfusion ha
    | ok text =>
      rw [hp] at ha
      exact parse_response_ok_mem ag.name ag.category text fp fs ha f hf

lemma batchStep_active_le {s s' : BatchSchedState} (h : BatchStep s s')
    (hs : s.active.length ≤ review_concurrency_limit) :
    s'.active.length ≤ review_concurrency_limit := by
  cases h with
  | acquire t rest hw hlt =>
    simp only [List.length_append, List.length_cons, List.length_nil]
    omega
  | finish t hmem =>
    have hsub : (s.active.erase t).length ≤ s.active.length :=
      (List.erase_sublist t s.active).length_le
    simpa using hsub.trans hs

lemma batchReachable_active_le (n : Nat) (s : BatchSchedState)
    (h : BatchReachable (initBatchState n) s) :
    s.active.length ≤ review_concurrency_limit := by
  induction h with
  | refl => simp [initBatchState, review_concurrency_limit]
  | tail hab hbc ih => exact batchStep_active_le hbc ih

lemma firstFrom_append_of_not_mem {c : Char} :
    ∀ (p l : List Char), c ∉ p → firstFrom c (p ++ l) = firstFrom c l := by
  intro p
  induction p with
  | nil =>
    intro l h
    rfl
  | cons x xs ih =>
    intro l h
    have hx : ¬ x = c := by
      intro he
      exact h (he ▸ List.mem_cons_self x xs)
    simp only [List.cons_append, firstFrom, if_neg hx]
    exact ih l (fun hm => h (List.mem_cons_of_mem x hm))

lemma re_search_brackets_extracts (p1 mid p2 : List Char)
    (h1 : '[' ∉ p1) (h2 : ']' ∉ p2) :
    re_search_brackets (String.mk (p1 ++ '[' :: (mid ++ ']' :: p2))) =
      some (String.mk ('[' :: (mid ++ [']']))) := by
  unfold re_search_brackets
  show (match firstFrom '[' (p1 ++ '[' :: (mid ++ ']' :: p2)) with
    | none => none
    | some [] => none
    | some (_ :: rest) =>
      match firstFrom ']' rest.reverse with
      | none => none
      | some revSeg => some (String.mk ('[' :: revSeg.reverse))) = _
  rw [firstFrom_append_of_not_mem p1 _ h1]
  simp only [firstFrom, eq_self_iff_true, if_true]
  have hrev : (mid ++ ']' :: p2).reverse = p2.reverse ++ ']' :: mid.reverse := by
    simp
  rw [hrev, firstFrom_append_of_not_mem p2.reverse _ (by simpa using h2)]
  simp only [firstFrom, eq_self_iff_true, if_true]
  simp

-- ===== Concrete fixtures for witnesses and counterexamples =====

/-- A vector-store stub returning one match. -/
def stubSearch : SearchFun :=
  fun _ _ _ => Except.ok [{ text := "def helper(): pass", file_path := "utils.py" }]

/-- A vector-store stub that always raises. -/
def failingSearch : SearchFun :=
  fun _ _ _ => Except.error PyError.externalError

/-- A deterministic producer stub returning one well-formed finding entry. -/
def stubProducer : Producer :=
  fun _ => Except.ok "[\x7b\"title\": \"T\", \"severity\": \"high\"\x7d]"

/-- A producer stub that always raises. -/
def failingProducer : Producer :=
  fun _ => Except.error PyError.externalError

/-- An orchestrator whose collaborators are deterministic stubs. -/
def stubOrchestrator : ReviewOrchestrator :=
  { producers := fun _ => stubProducer, search := stubSearch }

/-- An orchestrator whose vector store always raises. -/
def failingSearchOrchestrator : ReviewOrchestrator :=
  { producers := fun _ => stubProducer, search := failingSearch }

/-- An orchestrator where exactly the performance task producer fails. -/
def onePerfFailOrchestrator : ReviewOrchestrator :=
  { producers := fun t =>
      match t with
      | TaskName.performance => failingProducer
      | _ => stubProducer
    search := stubSearch }

/-- The finding that the stub producer text decodes to for the security agent. -/
def cexFindingT : AgentFinding :=
  { agent_name := "SecurityAgent"
    category := FindingCategory.security
    severity := FindingSeverity.high
    title := "T"
    description := ""
    file_path := some "f.py"
    line_number := none
    code_snippet := none
    suggestion := none
    confidence := 0.8 }

-- ===== Claims =====

/-- C1: for every work item, after the orchestrate operation returns, the
accumulator agents_completed equals exactly the set of the four dispatched
task names (security, performance, style, architecture), regardless of
whether each task produced zero findings or failed internally: for any
producer and search behaviour and any completion order of the four review
nodes, the final agents_completed list is a permutation of the four names. -/
theorem orchestrate_completes_all_tasks (o : ReviewOrchestrator) (code fp ns : String)
    (ord : List TaskName) (hord : ord.Perm allTasks) :
    ((o.review_code_state code fp ns ord).agents_completed).Perm
      ["security", "performance", "style", "architecture"] :=
  review_completed_perm o code fp ns hord

/-- Witness for C1 at a concrete orchestrator and the graph order. -/
theorem orchestrate_completes_all_tasks_witness :
    ((stubOrchestrator.review_code_state "x = 1" "f.py" "ns" allTasks).agents_completed).Perm
      ["security", "performance", "style", "architecture"] :=
  orchestrate_completes_all_tasks stubOrchestrator "x = 1" "f.py" "ns" allTasks
    (List.Perm.refl allTasks)

/-- C2: for every input and every behaviour of the external producer,
BaseAgent.analyze never raises to its caller: when the attempted pipeline
raises internally the result is the empty finding list, when it succeeds
the result is its findings, and an unextractable response in particular
yields the empty finding list. -/
theorem analyze_never_raises (ag : Agent) (producer : Producer)
    (code context file_path : String) :
    ((analyze_attempt ag producer code context file_path).isOk = false →
      analyze ag producer code context file_path = []) ∧
    (∀ fs, analyze_attempt ag producer code context file_path = Except.ok fs →
      analyze ag producer code context file_path = fs) ∧
    (∀ text, producer (build_prompt ag code context file_path) = Except.ok text →
      re_search_brackets text = none →
      analyze ag producer code context file_path = []) := by
  refine ⟨?_, ?_, ?_⟩
  · intro h
    unfold analyze
    cases ha : analyze_attempt ag producer code context file_path with
    | ok fs =>
      rw [ha] at h
      simp [Except.isOk, Except.toBool] at h
    | error e => rfl
  · intro fs h
    unfold analyze
    rw [h]
  · intro text hp hre
    unfold analyze analyze_attempt
    rw [hp]
    simp [parse_response, hre]

/-- Witness for C2: a raising producer and an unextractable response both
yield the empty finding list. -/
theorem analyze_never_raises_witness :
    analyze SecurityAgent failingProducer "x = 1" "" "f.py" = [] ∧
    analyze SecurityAgent (fun _ => Except.ok "no structured payload here") "x = 1" "" "f.py"
      = [] :=
  ⟨(analyze_never_raises SecurityAgent failingProducer "x = 1" "" "f.py").1 rfl,
   (analyze_never_raises SecurityAgent (fun _ => Except.ok "no structured payload here")
      "x = 1" "" "f.py").2.2 "no structured payload here" rfl rfl⟩

/-- C3: for every work item and every completion order of the four analysis
tasks, the merge loses no update (each task contribution appears as a
contiguous segment of the final findings) and the final findings of any two
completion orders are permutations of each other: the finding set is
interleaving-independent, only the sequence order may differ. -/
theorem merge_order_independent (o : ReviewOrchestrator) (code fp ns : String)
    (ord1 ord2 : List TaskName) (h1 : ord1.Perm allTasks) (h2 : ord2.Perm allTasks) :
    ((o.review_code_state code fp ns ord1).findings).Perm
      ((o.review_code_state code fp ns ord2).findings) ∧
    ∀ t ∈ ord1, (taskFindings o code fp ns t) <:+:
      ((o.review_code_state code fp ns ord1).findings) := by
  constructor
  · exact review_findings_perm o code fp ns (h1.trans h2.symm)
  · intro t ht
    rw [review_findings_eq]
    exact infix_flatten_of_mem (fun t => taskFindings o code fp ns t) ord1 t ht

/-- Witness for C3 at a concrete orchestrator, with the graph order against
its reverse, and the security task contribution as the preserved update. -/
theorem merge_order_independent_witness :
    ((stubOrchestrator.review_code_state "x = 1" "f.py" "ns" allTasks).findings).Perm
      ((stubOrchestrator.review_code_state "x = 1" "f.py" "ns" allTasks.reverse).findings) ∧
    (taskFindings stubOrchestrator "x = 1" "f.py" "ns" TaskName.security) <:+:
      ((stubOrchestrator.review_code_state "x = 1" "f.py" "ns" allTasks).findings) :=
  ⟨(merge_order_independent stubOrchestrator "x = 1" "f.py" "ns" allTasks allTasks.reverse
      (List.Perm.refl allTasks) (List.reverse_perm allTasks)).1,
   (merge_order_independent stubOrchestrator "x = 1" "f.py" "ns" allTasks allTasks.reverse
      (List.Perm.refl allTasks) (List.reverse_perm allTasks)).2 TaskName.security (by simp [allTasks])⟩

/-- C9: with deterministic producer stubs, two consecutive review_code calls
with identical inputs produce identical finding sets: the first call leaves
the orchestrator unchanged, a second call under any completion order yields
a permutation of the first finding list, and a second call under the same
completion order yields the same finding list. -/
theorem orchestrate_deterministic (o : ReviewOrchestrator) (code fp ns : String)
    (ord1 ord2 : List TaskName) (h1 : ord1.Perm allTasks) (h2 : ord2.Perm allTasks) :
    (o.review_code code fp ns ord1).2 = o ∧
    ((o.review_code code fp ns ord1).1).Perm
      ((((o.review_code code fp ns ord1).2).review_code code fp ns ord2).1) ∧
    ((((o.review_code code fp ns ord1).2).review_code code fp ns ord1).1) =
      ((o.review_code code fp ns ord1).1) := by
  refine ⟨rfl, ?_, rfl⟩
  exact review_findings_perm o code fp ns (h1.trans h2.symm)

/-- Witness for C9 at a concrete stub orchestrator. -/
theorem orchestrate_deterministic_witness :
    ((stubOrchestrator.review_code "x = 1" "f.py" "ns" allTasks).1).Perm
      ((((stubOrchestrator.review_code "x = 1" "f.py" "ns" allTasks).2).review_code
        "x = 1" "f.py" "ns" allTasks.reverse).1) :=
  (orchestrate_deterministic stubOrchestrator "x = 1" "f.py" "ns" allTasks allTasks.reverse
    (List.Perm.refl allTasks) (List.reverse_perm allTasks)).2.1

lemma retrieve_context_context_of_fail (sf : SearchFun) (st : ReviewState)
    (hfail : ∀ q n k, (sf q n k).isOk = false) :
    (retrieve_context sf st).context = "" := by
  simp only [retrieve_context]
  cases hs : sf ("Code from " ++ st.file_path ++ ": " ++ st.code.take 500)
      st.repo_namespace 5 with
  | ok ms =>
    have h2 := hfail ("Code from " ++ st.file_path ++ ": " ++ st.code.take 500)
      st.repo_namespace 5
    rw [hs] at h2
    simp [Except.isOk, Except.toBool] at h2
  | error e => rfl

/-- C6: for every work item, when the context-retrieval search collaborator
fails in any way, the step does not raise: the context degrades to the
empty string, the orchestration still runs all four analysis tasks on the
empty context and returns their findings, and every task still completes. -/
theorem context_failure_degrades (o : ReviewOrchestrator) (code fp ns : String)
    (ord : List TaskName) (hord : ord.Perm allTasks)
    (hfail : ∀ q n k, (o.search q n k).isOk = false) :
    (o.review_code_state code fp ns ord).context = "" ∧
    (o.review_code_state code fp ns ord).findings =
      (ord.map (fun t => analyze (agentOf t) (o.producers t) code "" fp)).flatten ∧
    ((o.review_code_state code fp ns ord).agents_completed).Perm
      ["security", "performance", "style", "architecture"] := by
  have hctx : (retrieve_context o.search (initial_state code fp ns)).context = "" :=
    retrieve_context_context_of_fail o.search (initial_state code fp ns) hfail
  refine ⟨?_, ?_, review_completed_perm o code fp ns hord⟩
  · rw [review_code_state_eq]
    exact hctx
  · rw [review_findings_eq]
    have hfun : (fun t => taskFindings o code fp ns t) =
        (fun t => analyze (agentOf t) (o.producers t) code "" fp) := by
      funext t
      unfold taskFindings
      rw [hctx]
    rw [hfun]

/-- Witness for C6: a concrete orchestrator whose vector store always
raises still completes all tasks and returns the task findings computed on
the empty context. -/
theorem context_failure_degrades_witness :
    (failingSearchOrchestrator.review_code_state "x = 1" "f.py" "ns" allTasks).context = "" ∧
    (failingSearchOrchestrator.review_code_state "x = 1" "f.py" "ns" allTasks).findings =
      (allTasks.map (fun t =>
        analyze (agentOf t) (failingSearchOrchestrator.producers t) "x = 1" "" "f.py")).flatten ∧
    ((failingSearchOrchestrator.review_code_state "x = 1" "f.py" "ns" allTasks).agents_completed).Perm
      ["security", "performance", "style", "architecture"] :=
  context_failure_degrades failingSearchOrchestrator "x = 1" "f.py" "ns" allTasks
    (List.Perm.refl allTasks) (fun _ _ _ => rfl)

/-- C7: for every work item, if one of the four tasks fails internally,
orchestrate returns exactly the findings of the remaining tasks (the
failing task contributes zero findings without suppressing the others),
and agents_completed still contains all four task names. -/
theorem single_task_failure_isolated (o : ReviewOrchestrator) (code fp ns : String)
    (ord : List TaskName) (b : TaskName) (hord : ord.Perm allTasks)
    (hb : ∀ s, ((o.producers b) s).isOk = false) :
    ((o.review_code_state code fp ns ord).findings).Perm
      (((allTasks.filter (fun t => t != b)).map (fun t => taskFindings o code fp ns t)).flatten) ∧
    ((o.review_code_state code fp ns ord).agents_completed).Perm
      ["security", "performance", "style", "architecture"] := by
  have hfb : taskFindings o code fp ns b = [] :=
    analyze_eq_nil_of_producer_fail (agentOf b) (o.producers b) code
      (retrieve_context o.search (initial_state code fp ns)).context fp hb
  constructor
  · have h1 : ((o.review_code_state code fp ns ord).findings).Perm
        ((allTasks.map (fun t => taskFindings o code fp ns t)).flatten) := by
      rw [review_findings_eq]
      exact flatten_map_perm _ hord
    have h2 : ((allTasks.map (fun t => taskFindings o code fp ns t)).flatten) =
        (((allTasks.filter (fun t => t != b)).map
          (fun t => taskFindings o code fp ns t)).flatten) := by
      cases b <;> simp +decide [allTasks, hfb]
    rw [h2] at h1
    exact h1
  · exact review_completed_perm o code fp ns hord

/-- Witness for C7: with exactly the performance producer failing, the
findings are a permutation of the contributions of the other three tasks
and all four tasks complete. -/
theorem single_task_failure_isolated_witness :
    ((onePerfFailOrchestrator.review_code_state "x = 1" "f.py" "ns" allTasks).findings).Perm
      (((allTasks.filter (fun t => t != TaskName.performance)).map
        (fun t => taskFindings onePerfFailOrchestrator "x = 1" "f.py" "ns" t)).flatten) ∧
    ((onePerfFailOrchestrator.review_code_state "x = 1" "f.py" "ns" allTasks).agents_completed).Perm
      ["security", "performance", "style", "architecture"] :=
  single_task_failure_isolated onePerfFailOrchestrator "x = 1" "f.py" "ns" allTasks
    TaskName.performance (List.Perm.refl allTasks) (fun _ => rfl)

/-- C4 counterexample: review_multiple_files has no concurrency-limit
parameter to set to 2; its semaphore is hardcoded to 3, and over 5 items a
schedule with 3 item-pipelines simultaneously active is reachable, so the
claimed bound of at most 2 concurrently active orchestrations fails. -/
theorem batch_three_active_with_five_items :
    BatchReachable (initBatchState 5)
      { waiting := [3, 4], active := [0, 1, 2], done := [] } ∧
    2 < ({ waiting := [3, 4], active := [0, 1, 2], done := [] } : BatchSchedState).active.length := by
  constructor
  · refine Relation.ReflTransGen.head
      (BatchStep.acquire (initBatchState 5) 0 [1, 2, 3, 4] rfl (by decide)) ?_
    refine Relation.ReflTransGen.head
      (BatchStep.acquire _ 1 [2, 3, 4] rfl (by decide)) ?_
    refine Relation.ReflTransGen.head
      (BatchStep.acquire _ 2 [3, 4] rfl (by decide)) ?_
    exact Relation.ReflTransGen.refl
  · decide

/-- C4 (amended): review_multiple_files bounds the number of concurrently
active item-pipelines by its hardcoded semaphore limit, which is 3; for any
batch size, every reachable scheduling state has at most 3 active items. -/
theorem batch_concurrency_bounded_by_three (n : Nat) (s : BatchSchedState)
    (h : BatchReachable (initBatchState n) s) :
    s.active.length ≤ review_concurrency_limit ∧ review_concurrency_limit = 3 :=
  ⟨batchReachable_active_le n s h, rfl⟩

/-- Witness for the amended C4 at the initial state of a 5-item batch. -/
theorem batch_concurrency_bounded_by_three_witness :
    (initBatchState 5).active.length ≤ review_concurrency_limit ∧
      review_concurrency_limit = 3 :=
  batch_concurrency_bounded_by_three 5 (initBatchState 5) Relation.ReflTransGen.refl

-- ===== C5 fixtures =====

/-- A per-item review outcome where exactly the item with path Y raises. -/
def reviewItemWithYFailure : String × String → Except PyError (List AgentFinding) :=
  fun fd => if fd.1 = "Y" then Except.error PyError.externalError else Except.ok []

/-- A per-item review outcome where every item succeeds with no findings. -/
def reviewItemAllOk : String × String → Except PyError (List AgentFinding) :=
  fun _ => Except.ok []

/-- The three-item batch of the claim scenario. -/
def batchFilesXYZ : List (String × String) := [("X", "cx"), ("Y", "cy"), ("Z", "cz")]

/-- C5 counterexample: the batch result produced for a batch where item Y
raises is identical to the one produced when every item succeeds, so the
produced result cannot report the set of succeeded identifiers or a mapping
from failed identifiers to error summaries: ReviewResult has no such
fields, failures are only logged. -/
theorem batch_result_forgets_failures :
    review_multiple_files reviewItemWithYFailure batchFilesXYZ "owner_repo" 0 =
      review_multiple_files reviewItemAllOk batchFilesXYZ "owner_repo" 0 ∧
    reviewItemWithYFailure ("Y", "cy") = Except.error PyError.externalError ∧
    reviewItemAllOk ("Y", "cy") = Except.ok [] := by
  refine ⟨rfl, rfl, rfl⟩

/-- C5 (amended): when one item of a three-item batch raises, its findings
are excluded, the sibling items still contribute, and the produced
ReviewResult counts all submitted items (including the failed one) in
total_files_analyzed and concatenates exactly the findings of the
succeeding items; succeeded identifiers and a failed-identifier map are
not part of the result. -/
theorem batch_failure_isolation (r : String × String → Except PyError (List AgentFinding))
    (x y z : String × String) (fx fz : List AgentFinding) (e : PyError)
    (hx : r x = Except.ok fx) (hy : r y = Except.error e) (hz : r z = Except.ok fz)
    (ns : String) (now : Nat) :
    (review_multiple_files r [x, y, z] ns now).total_files_analyzed = 3 ∧
    (review_multiple_files r [x, y, z] ns now).findings = fx ++ fz := by
  unfold review_multiple_files
  simp [hx, hy, hz]

/-- Witness for the amended C5 at the concrete X-ok, Y-raises, Z-ok batch. -/
theorem batch_failure_isolation_witness :
    (review_multiple_files reviewItemWithYFailure batchFilesXYZ "ns" 0).total_files_analyzed = 3 ∧
    (review_multiple_files reviewItemWithYFailure batchFilesXYZ "ns" 0).findings = [] ++ [] :=
  batch_failure_isolation reviewItemWithYFailure ("X", "cx") ("Y", "cy") ("Z", "cz")
    [] [] PyError.externalError rfl rfl rfl "ns" 0

/-- C8 (amended): finding extraction tolerates extra prose around the
bracketed payload (the match runs from the first opening bracket to the
last closing bracket); a severity string outside the known five, and a
missing severity entry, map to the info severity; an object entry missing
fields is kept with the source defaults; but an entry of the array that is
not an object makes the whole extraction raise AttributeError (converted to
zero findings at the task boundary), so unparsable entries are not dropped
individually. -/
theorem parse_response_tolerance (p1 mid p2 : List Char)
    (h1 : '[' ∉ p1) (h2 : ']' ∉ p2) :
    re_search_brackets (String.mk (p1 ++ '[' :: (mid ++ ']' :: p2))) =
      some (String.mk ('[' :: (mid ++ [']']))) ∧
    (∀ s : String, severity_map.lookup s = none →
      severityOfJson (Json.str s) = Except.ok FindingSeverity.info) ∧
    (∀ fields : List (String × Json), (fields.reverse).lookup "severity" = none →
      severityOfJson (objGet fields "severity" (Json.str "info")) =
        Except.ok FindingSeverity.info) ∧
    (∀ (n : String) (c : FindingCategory) (fp : String) (k : Int) (rest : List Json),
      parse_items n c fp (Json.num k :: rest) = Except.error PyError.attributeError) ∧
    (∀ (n : String) (c : FindingCategory) (fp : String),
      parse_items n c fp [Json.obj []] =
        Except.ok [{ agent_name := n
                     category := c
                     severity := FindingSeverity.info
                     title := "Issue found"
                     description := ""
                     file_path := some fp
                     line_number := none
                     code_snippet := none
                     suggestion := none
                     confidence := 0.8 }]) := by
  refine ⟨re_search_brackets_extracts p1 mid p2 h1 h2, ?_, ?_, ?_, ?_⟩
  · intro s h
    simp [severityOfJson, h]
  · intro fields h
    simp only [objGet, h, Option.getD]
    rfl
  · intro n c fp k rest
    simp [parse_items, parseItem]
  · intro n c fp
    rfl

/-- Witness for the amended C8 at concrete prose, severity and entries. -/
theorem parse_response_tolerance_witness :
    re_search_brackets (String.mk (['a'] ++ '[' :: (['1'] ++ ']' :: ['b']))) =
      some (String.mk ('[' :: (['1'] ++ [']']))) ∧
    severityOfJson (Json.str "weird") = Except.ok FindingSeverity.info ∧
    severityOfJson (objGet [("title", Json.str "T")] "severity" (Json.str "info")) =
      Except.ok FindingSeverity.info ∧
    parse_items "A" FindingCategory.security "f.py" [Json.num 1, Json.obj []] =
      Except.error PyError.attributeError ∧
    parse_items "A" FindingCategory.security "f.py" [Json.obj []] =
      Except.ok [{ agent_name := "A"
                   category := FindingCategory.security
                   severity := FindingSeverity.info
                   title := "Issue found"
                   description := ""
                   file_path := some "f.py"
                   line_number := none
                   code_snippet := none
                   suggestion := none
                   confidence := 0.8 }] :=
  ⟨(parse_response_tolerance ['a'] ['1'] ['b'] (by decide) (by decide)).1,
   (parse_response_tolerance ['a'] ['1'] ['b'] (by decide) (by decide)).2.1 "weird" rfl,
   (parse_response_tolerance ['a'] ['1'] ['b'] (by decide) (by decide)).2.2.1
     [("title", Json.str "T")] rfl,
   (parse_response_tolerance ['a'] ['1'] ['b'] (by decide) (by decide)).2.2.2.1
     "A" FindingCategory.security "f.py" 1 [Json.obj []],
   (parse_response_tolerance ['a'] ['1'] ['b'] (by decide) (by decide)).2.2.2.2
     "A" FindingCategory.security "f.py"⟩

/-- A producer response holding one non-object entry followed by one
well-formed entry. -/
def cexResponseWithNonDict : String :=
  "Here are the findings: [1, \x7b\"title\": \"T\", \"severity\": \"high\"\x7d] thanks"

/-- C8 counterexample: with a response whose findings array holds a
non-object entry next to a well-formed entry, extraction raises
AttributeError and the task yields zero findings, although the well-formed
entry alone decodes to one finding; the well-formed entries are therefore
not kept when a sibling entry is unparsable, refuting the claim as stated. -/
theorem parse_discards_wellformed_with_nondict :
    parse_response "SecurityAgent" FindingCategory.security cexResponseWithNonDict "f.py" =
      Except.error PyError.attributeError ∧
    analyze SecurityAgent (fun _ => Except.ok cexResponseWithNonDict) "x = 1" "" "f.py" = [] ∧
    parse_response "SecurityAgent" FindingCategory.security
      "[\x7b\"title\": \"T\", \"severity\": \"high\"\x7d]" "f.py" = Except.ok [cexFindingT] :=
  ⟨rfl, rfl, rfl⟩

/-- C10 (implicit): every finding returned by analyze carries the agent
configured name as agent_name, the agent single fixed category, and the
model-default confidence of exactly 0.8, which lies in the unit interval;
the parser never reads a confidence from the producer output. -/
theorem analyze_finding_fields_fixed (ag : Agent) (producer : Producer)
    (code context fp : String) (f : AgentFinding)
    (hf : f ∈ analyze ag producer code context fp) :
    f.agent_name = ag.name ∧ f.category = ag.category ∧
    f.confidence = 0.8 ∧ 0 ≤ f.confidence ∧ f.confidence ≤ 1 := by
  obtain ⟨ha, hc, hconf, _⟩ := analyze_mem_fields ag producer code context fp f hf
  refine ⟨ha, hc, hconf, ?_, ?_⟩ <;> rw [hconf] <;> norm_num

/-- Witness for C10 at the concrete finding the stub producer yields. -/
theorem analyze_finding_fields_fixed_witness :
    cexFindingT.agent_name = SecurityAgent.name ∧
    cexFindingT.category = SecurityAgent.category ∧
    cexFindingT.confidence = 0.8 ∧ 0 ≤ cexFindingT.confidence ∧ cexFindingT.confidence ≤ 1 :=
  analyze_finding_fields_fixed SecurityAgent stubProducer "x = 1" "" "f.py" cexFindingT
    (by rw [show analyze SecurityAgent stubProducer "x = 1" "" "f.py" = [cexFindingT] from rfl]
        exact List.mem_singleton.mpr rfl)
